import Mathlib

/-!
Shallow embedding of the pdf-to-md-poc batch scripts.

The repository holds four near-identical batch scripts
(`docling/main.py`, `marker/main.py`, `markitdown/main.py`,
`pymupdf/main.py`).  Each one walks a configured list of sources
(folders, single files, URLs), filters files by an extension allow-list
and a 50 MB size limit, calls its conversion library, writes the result
under `<tool>/output/...`, and returns `(converted, failed, skipped)`
triples that `convert_from_sources` sums over all sources.

The four copies differ only in the tool name, the extension allow-list,
whether a `"url"` dispatch branch exists (`pymupdf/main.py` has none),
and — for `marker/main.py` — the output extension computed from
`OUTPUT_FORMAT`.  We embed the common code once, parametrised by a
`Script` record, and instantiate it for the four scripts.

Modelling choices:
* Conversion-library calls are an oracle `conv : _ → Bool`;
  `conv x = false` models the library raising an exception,
  `conv x = true` a successful conversion.
* Filesystem facts (existence, traversal yield, sizes, suffixes) are
  inputs: a folder source carries the list of entries its
  `rglob('*')` / `glob('*')` traversal yields.
* Python compares `st_size / (1024 * 1024) > MAX_FILE_SIZE_MB` in
  floating point.  Division by the power of two `1024 * 1024` is exact
  and `50` is exactly representable, so the comparison is equivalent to
  `50 * 1024 * 1024 < st_size` over the integers, which is how
  `exceeds_size_limit` states it.
* Paths are lists of components; `<tool>/output/a/b.md` is
  `["tool", "output", "a", "b.md"]`.  Python's
  `relative_path.with_suffix(ext)` replaces the final suffix, so for a
  file with stem `st` and suffix `suf` it yields `st ++ ext`.
-/

/-- Lowercasing as Python applies it to `file_path.suffix` via
`lower()`: lowercase every character.  (The suffixes compared against
the allow-lists are ASCII, where `Char.toLower` agrees with Python.) -/
def to_lower (s : String) : String :=
  ⟨s.data.map Char.toLower⟩

/-- The constant `OUTPUT_DIR_NAME = "output"`, identical in all four scripts. -/
def OUTPUT_DIR_NAME : String := "output"

/-- The constant `MAX_FILE_SIZE_MB = 50`, identical in all four scripts. -/
def MAX_FILE_SIZE_MB : Nat := 50

/-- The size test `file_size_mb > MAX_FILE_SIZE_MB` where
`file_size_mb = st_size / (1024 * 1024)`; exact over `Nat` because the
divisor is a power of two (see the header comment). -/
def exceeds_size_limit (sizeBytes : Nat) : Bool :=
  decide (MAX_FILE_SIZE_MB * 1024 * 1024 < sizeBytes)

/-- One filesystem entry yielded by a folder source's traversal
(`folder_path.rglob('*')` or `folder_path.glob('*')`).
`dir` is the directory part of `file_path.relative_to(folder_path)`,
`stem`/`suffix` split its final component as `pathlib` does
(`filename = stem ++ suffix`), `sizeBytes` is `stat().st_size`. -/
structure Entry where
  is_file : Bool
  dir : List String
  stem : String
  suffix : String
  sizeBytes : Nat
deriving DecidableEq, Repr

/-- A `SOURCES` element together with the filesystem facts the script
reads about it: the config dict's `"type"` and `"name"` fields,
`Path(config["path"]).exists()`, the traversal yield when it is a
folder, and the suffix and size when it is a single file. -/
structure SourceConfig where
  source_type : String
  name : String
  path_exists : Bool
  entries : List Entry
  suffix : String
  sizeBytes : Nat
deriving DecidableEq, Repr

/-- Static per-script parameters: tool name (first component of the
output directory), `SUPPORTED_EXTENSIONS`, whether
`convert_from_sources` has a `"url"` dispatch branch, and the extension
written on converted output files. -/
structure Script where
  tool : String
  supported_extensions : List String
  handles_url : Bool
  out_ext : String
deriving DecidableEq, Repr

/-- The directory `Path(tool) / OUTPUT_DIR_NAME` built by `setup_output_directory`. -/
def output_dir (s : Script) : List String :=
  [s.tool, OUTPUT_DIR_NAME]

/-- The allow-list test `file_path.suffix.lower() in
SUPPORTED_EXTENSIONS` shared by the folder and single-file paths. -/
def suffix_supported (s : Script) (sfx : String) : Bool :=
  s.supported_extensions.contains (to_lower sfx)

/-- Observable outcome of `process_folder_source`: the three counters,
the conversion calls it made (in traversal order), and the output paths
it wrote. -/
structure FolderRun where
  converted_count : Nat
  failed_count : Nat
  skipped_count : Nat
  attempts : List Entry
  writes : List (List String)
deriving DecidableEq, Repr

/-- The empty run: the value returned when the folder does not exist,
and the state of the counters before the loop. -/
def FolderRun.empty : FolderRun :=
  ⟨0, 0, 0, [], []⟩

/-- The per-file loop of
`process_folder_source`: for each entry that `is_file()` and whose
lowercased suffix is in `SUPPORTED_EXTENSIONS`, either skip it (over
the size limit), or call the converter and count a success (writing the
output file) or a caught exception. Entries failing the filter are
untouched. -/
def folder_loop (s : Script) (conv : Entry → Bool) (source_name : String) :
    List Entry → FolderRun
  | [] => FolderRun.empty
  | e :: rest =>
    let r := folder_loop s conv source_name rest
    if e.is_file && suffix_supported s e.suffix then
      if exceeds_size_limit e.sizeBytes then
        { r with skipped_count := r.skipped_count + 1 }
      else if conv e then
        { r with
            converted_count := r.converted_count + 1,
            attempts := e :: r.attempts,
            writes :=
              (output_dir s ++ [source_name] ++ e.dir ++ [e.stem ++ s.out_ext])
                :: r.writes }
      else
        { r with
            failed_count := r.failed_count + 1,
            attempts := e :: r.attempts }
    else r

/-- The function `process_folder_source`: return `0, 0, 0` when the folder path does
not exist, otherwise run the traversal loop over the yielded entries. -/
def process_folder_source (s : Script) (conv : Entry → Bool)
    (src : SourceConfig) : FolderRun :=
  if src.path_exists then folder_loop s conv src.name src.entries
  else FolderRun.empty

/-- Observable outcome of `process_file_source` / `process_url_source`:
the `(converted, failed, skipped)` triple it returns, whether the
conversion library was invoked, and the output path written (if any). -/
structure FileRun where
  counts : Nat × Nat × Nat
  attempted : Bool
  write : Option (List String)
deriving DecidableEq, Repr

/-- The function `process_file_source`: missing path → `(0, 1, 0)`; unsupported
suffix → `(0, 1, 0)`; then, inside the `try`, over the size limit →
`(0, 0, 1)`; then the conversion call, whose success returns
`(1, 0, 0)` and writes `single_files/<name>.md` (the marker script uses
its computed extension), and whose exception returns `(0, 1, 0)`. -/
def process_file_source (s : Script) (conv : SourceConfig → Bool)
    (src : SourceConfig) : FileRun :=
  if !src.path_exists then ⟨(0, 1, 0), false, none⟩
  else if !(suffix_supported s src.suffix) then
    ⟨(0, 1, 0), false, none⟩
  else if exceeds_size_limit src.sizeBytes then ⟨(0, 0, 1), false, none⟩
  else if conv src then
    ⟨(1, 0, 0), true,
      some (output_dir s ++ ["single_files", src.name ++ s.out_ext])⟩
  else ⟨(0, 1, 0), true, none⟩

/-- The function `process_url_source` (absent from the pymupdf script): call the
converter on the URL; success returns `(1, 0, 0)` and writes
`urls/<name>.md`, an exception returns `(0, 1, 0)`. -/
def process_url_source (s : Script) (conv : SourceConfig → Bool)
    (src : SourceConfig) : FileRun :=
  if conv src then
    ⟨(1, 0, 0), true, some (output_dir s ++ ["urls", src.name ++ s.out_ext])⟩
  else ⟨(0, 1, 0), true, none⟩

/-- Which processing function a source is dispatched to. -/
inductive Handler where
  | folder
  | file
  | url
deriving DecidableEq, Repr

/-- The `if source_type == "folder" / elif "file" / elif "url" / else
continue` chain of `convert_from_sources`; the pymupdf script has no
`"url"` branch, which `handles_url = false` records.  `none` is the
`else` branch that prints an unsupported-type message and `continue`s. -/
def dispatch (handles_url : Bool) (source_type : String) : Option Handler :=
  if source_type == ("folder") then some Handler.folder
  else if source_type == ("file") then some Handler.file
  else if handles_url && source_type == ("url") then some Handler.url
  else none

/-- The `(converted, failed, skipped)` triple one source contributes to
the running totals of `convert_from_sources`; an undispatched source
contributes nothing. -/
def source_counts (s : Script) (convE : Entry → Bool)
    (convF convU : SourceConfig → Bool) (src : SourceConfig) :
    Nat × Nat × Nat :=
  match dispatch s.handles_url src.source_type with
  | some Handler.folder =>
    let r := process_folder_source s convE src
    (r.converted_count, r.failed_count, r.skipped_count)
  | some Handler.file => (process_file_source s convF src).counts
  | some Handler.url => (process_url_source s convU src).counts
  | none => (0, 0, 0)

/-- Componentwise sum of two counter triples, as performed by the
`total_converted += converted` (etc.) statements. -/
def add3 (a b : Nat × Nat × Nat) : Nat × Nat × Nat :=
  (a.1 + b.1, a.2.1 + b.2.1, a.2.2 + b.2.2)

/-- The function `convert_from_sources`: fold the per-source triples into the three
running totals, starting from zero. -/
def convert_from_sources (s : Script) (convE : Entry → Bool)
    (convF convU : SourceConfig → Bool) (sources : List SourceConfig) :
    Nat × Nat × Nat :=
  sources.foldl (fun acc src => add3 acc (source_counts s convE convF convU src))
    (0, 0, 0)

/-- The quantity `total_processed = converted_count + failed_count + skipped_count`
as computed in each script's `main`. -/
def total_processed (t : Nat × Nat × Nat) : Nat :=
  t.1 + t.2.1 + t.2.2

namespace Docling

/-- The `SUPPORTED_EXTENSIONS` set of `docling/main.py`. -/
def SUPPORTED_EXTENSIONS : List String :=
  [".pdf", ".docx", ".pptx", ".xlsx", ".xls", ".html", ".htm",
   ".txt", ".csv",
   ".jpg", ".jpeg", ".png", ".tiff", ".bmp",
   ".wav", ".mp3", ".m4a",
   ".vtt"]

/-- The docling script's parameters: output under `docling/output`, a
`"url"` dispatch branch, `.md` outputs. -/
def script : Script :=
  ⟨"docling", SUPPORTED_EXTENSIONS, true, ".md"⟩

end Docling

namespace Marker

/-- The constant `OUTPUT_FORMAT = "markdown"` in `marker/main.py`. -/
def OUTPUT_FORMAT : String := "markdown"

/-- The output extension the marker script computes from its
`OUTPUT_FORMAT`: `.md` for `"markdown"`, else `.<OUTPUT_FORMAT>`. -/
def extension (output_format : String) : String :=
  if output_format == ("markdown") then (".md") else ("." ++ output_format)

/-- The `SUPPORTED_EXTENSIONS` set of `marker/main.py`. -/
def SUPPORTED_EXTENSIONS : List String :=
  [".pdf", ".docx", ".pptx", ".xlsx", ".xls", ".html", ".htm",
   ".epub",
   ".png", ".jpg", ".jpeg", ".tiff", ".bmp", ".gif"]

/-- The marker script's parameters. -/
def script : Script :=
  ⟨"marker", SUPPORTED_EXTENSIONS, true, extension OUTPUT_FORMAT⟩

end Marker

namespace Markitdown

/-- The `SUPPORTED_EXTENSIONS` set of `markitdown/main.py`.  (Its
`process_file_source` measures `len(file_bytes)` of the bytes it read
rather than `stat().st_size`; both are the file's size in bytes, so the
embedding is the same.) -/
def SUPPORTED_EXTENSIONS : List String :=
  [".pdf", ".docx", ".xlsx", ".xls", ".txt", ".csv", ".html", ".htm",
   ".epub", ".rtf", ".odt",
   ".jpg", ".jpeg", ".png", ".gif", ".bmp", ".tiff",
   ".wav", ".mp3", ".m4a",
   ".mp4", ".mov", ".avi"]

/-- The markitdown script's parameters. -/
def script : Script :=
  ⟨"markitdown", SUPPORTED_EXTENSIONS, true, ".md"⟩

end Markitdown

namespace Pymupdf

/-- The `SUPPORTED_EXTENSIONS` set of `pymupdf/main.py`. -/
def SUPPORTED_EXTENSIONS : List String :=
  [".pdf"]

/-- The pymupdf script's parameters: its `convert_from_sources` has no
`"url"` branch. -/
def script : Script :=
  ⟨"pymupdf", SUPPORTED_EXTENSIONS, false, ".md"⟩

end Pymupdf

/-- The four embedded scripts. -/
def all_scripts : List Script :=
  [Docling.script, Marker.script, Markitdown.script, Pymupdf.script]


/-!
General lemmas about the embedded operations, shared by the claim
theorems below.
-/

/-- The conversion calls a folder run makes are exactly the yielded
entries that are files, have an allow-listed suffix, and are within the
size limit, in traversal order. -/
theorem folder_loop_attempts (s : Script) (conv : Entry → Bool)
    (source_name : String) (entries : List Entry) :
    (folder_loop s conv source_name entries).attempts
      = entries.filter (fun e =>
          (e.is_file && suffix_supported s e.suffix)
            && !exceeds_size_limit e.sizeBytes) := by
  induction entries with
  | nil => rfl
  | cons e rest ih =>
    cases h1 : e.is_file && suffix_supported s e.suffix with
    | false => simp [folder_loop, h1, ih, List.filter_cons]
    | true =>
      cases h2 : exceeds_size_limit e.sizeBytes with
      | false =>
        cases h3 : conv e with
        | false => simp [folder_loop, h1, h2, h3, ih, List.filter_cons]
        | true => simp [folder_loop, h1, h2, h3, ih, List.filter_cons]
      | true => simp [folder_loop, h1, h2, ih, List.filter_cons]

/-- The skipped counter of a folder run counts exactly the yielded
files with an allow-listed suffix that are over the size limit. -/
theorem folder_loop_skipped (s : Script) (conv : Entry → Bool)
    (source_name : String) (entries : List Entry) :
    (folder_loop s conv source_name entries).skipped_count
      = (entries.filter (fun e =>
          (e.is_file && suffix_supported s e.suffix)
            && exceeds_size_limit e.sizeBytes)).length := by
  induction entries with
  | nil => rfl
  | cons e rest ih =>
    cases h1 : e.is_file && suffix_supported s e.suffix with
    | false => simp [folder_loop, h1, ih, List.filter_cons]
    | true =>
      cases h2 : exceeds_size_limit e.sizeBytes with
      | false =>
        cases h3 : conv e with
        | false => simp [folder_loop, h1, h2, h3, ih, List.filter_cons]
        | true => simp [folder_loop, h1, h2, h3, ih, List.filter_cons]
      | true => simp [folder_loop, h1, h2, ih, List.filter_cons]

/-- Every output path a folder run writes comes from a yielded entry
and mirrors that entry, with the suffix replaced by the script output
extension, under `output/<source-name>/`. -/
theorem folder_loop_writes (s : Script) (conv : Entry → Bool)
    (source_name : String) (entries : List Entry) :
    ∀ p ∈ (folder_loop s conv source_name entries).writes,
      ∃ e, e ∈ entries ∧
        p = output_dir s ++ [source_name] ++ e.dir ++ [e.stem ++ s.out_ext] := by
  induction entries with
  | nil => intro p hp; simp [folder_loop, FolderRun.empty] at hp
  | cons e rest ih =>
    intro p hp
    cases h1 : e.is_file && suffix_supported s e.suffix with
    | false =>
      simp only [folder_loop, h1] at hp
      obtain ⟨e0, he0, hpe⟩ := ih p (by simpa using hp)
      exact ⟨e0, List.mem_cons_of_mem e he0, hpe⟩
    | true =>
      cases h2 : exceeds_size_limit e.sizeBytes with
      | false =>
        cases h3 : conv e with
        | false =>
          simp only [folder_loop, h1, h2, h3] at hp
          obtain ⟨e0, he0, hpe⟩ := ih p (by simpa using hp)
          exact ⟨e0, List.mem_cons_of_mem e he0, hpe⟩
        | true =>
          simp only [folder_loop, h1, h2, h3] at hp
          rcases (by simpa using hp :
              p = output_dir s ++ [source_name] ++ e.dir ++ [e.stem ++ s.out_ext]
                ∨ p ∈ (folder_loop s conv source_name rest).writes) with h | h
          · exact ⟨e, List.mem_cons_self e rest, h⟩
          · obtain ⟨e0, he0, hpe⟩ := ih p h
            exact ⟨e0, List.mem_cons_of_mem e he0, hpe⟩
      | true =>
        simp only [folder_loop, h1, h2] at hp
        obtain ⟨e0, he0, hpe⟩ := ih p (by simpa using hp)
        exact ⟨e0, List.mem_cons_of_mem e he0, hpe⟩

/-- Adding the zero triple on the left changes nothing. -/
theorem add3_zero_left (t : Nat × Nat × Nat) : add3 (0, 0, 0) t = t := by
  simp [add3]

/-- Componentwise triple addition is associative. -/
theorem add3_assoc (a b c : Nat × Nat × Nat) :
    add3 (add3 a b) c = add3 a (add3 b c) := by
  simp [add3, Nat.add_assoc]

/-- Folding the per-source triples from an arbitrary accumulator is the
accumulator plus the fold from zero. -/
theorem convert_foldl_shift (s : Script) (convE : Entry → Bool)
    (convF convU : SourceConfig → Bool) (sources : List SourceConfig)
    (a : Nat × Nat × Nat) :
    sources.foldl
        (fun acc src => add3 acc (source_counts s convE convF convU src)) a
      = add3 a (convert_from_sources s convE convF convU sources) := by
  induction sources generalizing a with
  | nil => simp [convert_from_sources, add3]
  | cons src rest ih =>
    simp only [convert_from_sources, List.foldl_cons] at *
    rw [ih, ih (add3 (0, 0, 0) (source_counts s convE convF convU src)),
      add3_zero_left, add3_assoc]

/-- Processing a source list is the head source triple plus the
processing of the remaining sources. -/
theorem convert_from_sources_cons (s : Script) (convE : Entry → Bool)
    (convF convU : SourceConfig → Bool) (src : SourceConfig)
    (rest : List SourceConfig) :
    convert_from_sources s convE convF convU (src :: rest)
      = add3 (source_counts s convE convF convU src)
          (convert_from_sources s convE convF convU rest) := by
  simp only [convert_from_sources, List.foldl_cons]
  rw [convert_foldl_shift, add3_zero_left]
  rfl

/-!
Claim theorems.
-/

/-- C1: for every file yielded by an existing folder source whose
lowercased extension is in the allow-list and whose size is at or below
the 50 MB limit, and which the traversal yields exactly once, the run
makes exactly one conversion call for that file — it is neither
converted twice nor passed over. -/
theorem folder_eligible_file_attempted_once (s : Script) (conv : Entry → Bool)
    (src : SourceConfig) (e : Entry)
    (hex : src.path_exists = true)
    (hf : e.is_file = true)
    (hsupp : suffix_supported s e.suffix = true)
    (hsize : exceeds_size_limit e.sizeBytes = false)
    (honce : src.entries.count e = 1) :
    (process_folder_source s conv src).attempts.count e = 1 := by
  simp only [process_folder_source, hex, if_true]
  rw [folder_loop_attempts]
  rw [List.count_filter (by simp [hf, hsupp, hsize])]
  exact honce

/-- C1 witness: a one-entry folder source with an eligible file gets
exactly one conversion call. -/
theorem folder_eligible_file_attempted_once_witness :
    (process_folder_source Docling.script (fun _ => true)
      { source_type := "folder", name := "n", path_exists := true,
        entries := [⟨true, [], "a", ".pdf", 10⟩], suffix := "",
        sizeBytes := 0 }).attempts.count ⟨true, [], "a", ".pdf", 10⟩ = 1 :=
  folder_eligible_file_attempted_once Docling.script (fun _ => true)
    { source_type := "folder", name := "n", path_exists := true,
      entries := [⟨true, [], "a", ".pdf", 10⟩], suffix := "", sizeBytes := 0 }
    ⟨true, [], "a", ".pdf", 10⟩
    (by decide) (by decide) (by decide) (by decide) (by decide)

/-- C2 counterexample: an existing single-file source over the 50 MB
limit whose extension is outside the allow-list returns `(0, 1, 0)` —
the skipped counter does not increment although the file exceeds the
limit (the claim requires skipped to increment by exactly one for every
such file). -/
theorem oversized_unsupported_file_not_skipped :
    exceeds_size_limit (60 * 1024 * 1024) = true
    ∧ process_file_source Docling.script (fun _ => true)
        { source_type := "file", name := "big", path_exists := true,
          entries := [], suffix := ".xyz", sizeBytes := 60 * 1024 * 1024 }
        = ⟨(0, 1, 0), false, none⟩ := by
  decide

/-- C2 amended: for every oversized file that passes the checks made
before the size check — in a folder source, being a file with an
allow-listed extension; in a file source, an existing path and an
allow-listed extension — no conversion call is attempted and the
skipped counter increments by exactly one; conversely, the skipped
counter increments only for such oversized files. -/
theorem skip_iff_supported_oversized (s : Script) (convE : Entry → Bool)
    (convF : SourceConfig → Bool) (src fsrc : SourceConfig)
    (hex : src.path_exists = true) :
    ((process_folder_source s convE src).skipped_count
       = (src.entries.filter (fun e =>
           (e.is_file && suffix_supported s e.suffix)
             && exceeds_size_limit e.sizeBytes)).length)
  ∧ (∀ e ∈ (process_folder_source s convE src).attempts,
       exceeds_size_limit e.sizeBytes = false)
  ∧ (fsrc.path_exists = true → suffix_supported s fsrc.suffix = true →
       exceeds_size_limit fsrc.sizeBytes = true →
       process_file_source s convF fsrc = ⟨(0, 0, 1), false, none⟩)
  ∧ ((process_file_source s convF fsrc).counts.2.2 = 1 →
       exceeds_size_limit fsrc.sizeBytes = true) := by
  refine ⟨?_, ?_, ?_, ?_⟩
  · simp only [process_folder_source, hex, if_true]
    exact folder_loop_skipped s convE src.name src.entries
  · intro e he
    simp only [process_folder_source, hex, if_true,
      folder_loop_attempts] at he
    have := (List.mem_filter.mp he).2
    simp only [Bool.and_eq_true, Bool.not_eq_true] at this
    simpa using this.2
  · intro h1 h2 h3
    simp [process_file_source, h1, h2, h3]
  · intro hskip
    cases hov : exceeds_size_limit fsrc.sizeBytes with
    | true => rfl
    | false =>
      exfalso
      cases hpe : fsrc.path_exists with
      | false => simp [process_file_source, hpe] at hskip
      | true =>
        cases hsup : suffix_supported s fsrc.suffix with
        | false => simp [process_file_source, hpe, hsup] at hskip
        | true =>
          cases hc : convF fsrc with
          | false => simp [process_file_source, hpe, hsup, hov, hc] at hskip
          | true => simp [process_file_source, hpe, hsup, hov, hc] at hskip

/-- C2 amended witness at a concrete folder source holding one
oversized allow-listed file and a concrete oversized allow-listed
single-file source. -/
theorem skip_iff_supported_oversized_witness :
    ((process_folder_source Docling.script (fun _ => true)
       { source_type := "folder", name := "n", path_exists := true,
         entries := [⟨true, [], "a", ".pdf", 60 * 1024 * 1024⟩],
         suffix := "", sizeBytes := 0 }).skipped_count
       = ([⟨true, [], "a", ".pdf", 60 * 1024 * 1024⟩].filter
           (fun e : Entry =>
           (e.is_file && suffix_supported Docling.script e.suffix)
             && exceeds_size_limit e.sizeBytes)).length)
  ∧ (∀ e ∈ (process_folder_source Docling.script (fun _ => true)
       { source_type := "folder", name := "n", path_exists := true,
         entries := [⟨true, [], "a", ".pdf", 60 * 1024 * 1024⟩],
         suffix := "", sizeBytes := 0 }).attempts,
       exceeds_size_limit e.sizeBytes = false)
  ∧ (({ source_type := "file", name := "m", path_exists := true,
        entries := [], suffix := ".pdf",
        sizeBytes := 60 * 1024 * 1024 } : SourceConfig).path_exists = true →
      suffix_supported Docling.script ".pdf" = true →
      exceeds_size_limit (60 * 1024 * 1024) = true →
      process_file_source Docling.script (fun _ => true)
        { source_type := "file", name := "m", path_exists := true,
          entries := [], suffix := ".pdf", sizeBytes := 60 * 1024 * 1024 }
        = ⟨(0, 0, 1), false, none⟩)
  ∧ ((process_file_source Docling.script (fun _ => true)
        { source_type := "file", name := "m", path_exists := true,
          entries := [], suffix := ".pdf",
          sizeBytes := 60 * 1024 * 1024 }).counts.2.2 = 1 →
      exceeds_size_limit (60 * 1024 * 1024) = true) :=
  skip_iff_supported_oversized Docling.script (fun _ => true) (fun _ => true)
    { source_type := "folder", name := "n", path_exists := true,
      entries := [⟨true, [], "a", ".pdf", 60 * 1024 * 1024⟩],
      suffix := "", sizeBytes := 0 }
    { source_type := "file", name := "m", path_exists := true,
      entries := [], suffix := ".pdf", sizeBytes := 60 * 1024 * 1024 }
    (by decide)

/-- C3 counterexample: a folder-type source whose path is missing
returns `(0, 0, 0)` — the failure counter does not increment (the claim
requires failed to increment by exactly one for every source with a
missing path, folder sources included). -/
theorem missing_folder_source_counts_nothing :
    process_folder_source Docling.script (fun _ => true)
      { source_type := "folder", name := "gone", path_exists := false,
        entries := [], suffix := "", sizeBytes := 0 }
      = ⟨0, 0, 0, [], []⟩ := by
  decide

/-- C3 amended: a file-type source whose path is missing or whose
extension is outside the allow-list returns `(0, 1, 0)` without a
conversion call; a folder-type source whose path is missing returns
`(0, 0, 0)` — also without a conversion call — rather than counting a
failure. -/
theorem missing_or_unsupported_short_circuit (s : Script)
    (convF : SourceConfig → Bool) (convE : Entry → Bool)
    (fsrc dsrc : SourceConfig)
    (hf : fsrc.path_exists = false ∨ suffix_supported s fsrc.suffix = false)
    (hd : dsrc.path_exists = false) :
    process_file_source s convF fsrc = ⟨(0, 1, 0), false, none⟩
    ∧ process_folder_source s convE dsrc = ⟨0, 0, 0, [], []⟩ := by
  constructor
  · rcases hf with h | h
    · simp [process_file_source, h]
    · cases hpe : fsrc.path_exists with
      | false => simp [process_file_source, hpe]
      | true => simp [process_file_source, hpe, h]
  · simp [process_folder_source, hd, FolderRun.empty]

/-- C3 amended witness at a concrete unsupported-extension file source
and a concrete missing folder source. -/
theorem missing_or_unsupported_short_circuit_witness :
    process_file_source Docling.script (fun _ => true)
      { source_type := "file", name := "f", path_exists := true,
        entries := [], suffix := ".xyz", sizeBytes := 10 }
      = ⟨(0, 1, 0), false, none⟩
    ∧ process_folder_source Docling.script (fun _ => true)
      { source_type := "folder", name := "d", path_exists := false,
        entries := [], suffix := "", sizeBytes := 0 }
      = ⟨0, 0, 0, [], []⟩ :=
  missing_or_unsupported_short_circuit Docling.script (fun _ => true)
    (fun _ => true)
    { source_type := "file", name := "f", path_exists := true,
      entries := [], suffix := ".xyz", sizeBytes := 10 }
    { source_type := "folder", name := "d", path_exists := false,
      entries := [], suffix := "", sizeBytes := 0 }
    (Or.inr (by decide)) (by decide)

/-- Summing triples componentwise sums their totals. -/
theorem total_processed_add3 (a b : Nat × Nat × Nat) :
    total_processed (add3 a b) = total_processed a + total_processed b := by
  simp [total_processed, add3]
  omega

/-- C4: an exception during one item's conversion is caught at that
item's granularity: in a folder run the failed counter increments by
one for that entry while the converted and skipped counters and the
writes are exactly those of the remaining entries; a single-file source
whose conversion raises returns `(0, 1, 0)`, as does a URL source; and
`convert_from_sources` always continues with the remaining sources,
adding their triples to the totals. -/
theorem conversion_exception_counts_failed_and_continues (s : Script)
    (convE : Entry → Bool) (convF convU : SourceConfig → Bool)
    (e : Entry) (rest : List Entry) (source_name : String)
    (src : SourceConfig) (others : List SourceConfig)
    (hf : e.is_file = true)
    (hsupp : suffix_supported s e.suffix = true)
    (hsize : exceeds_size_limit e.sizeBytes = false)
    (hconv : convE e = false) :
    (folder_loop s convE source_name (e :: rest)
       = { folder_loop s convE source_name rest with
             failed_count :=
               (folder_loop s convE source_name rest).failed_count + 1,
             attempts := e :: (folder_loop s convE source_name rest).attempts })
  ∧ (src.path_exists = true → suffix_supported s src.suffix = true →
       exceeds_size_limit src.sizeBytes = false → convF src = false →
       process_file_source s convF src = ⟨(0, 1, 0), true, none⟩)
  ∧ (convU src = false →
       process_url_source s convU src = ⟨(0, 1, 0), true, none⟩)
  ∧ (convert_from_sources s convE convF convU (src :: others)
       = add3 (source_counts s convE convF convU src)
           (convert_from_sources s convE convF convU others)) := by
  refine ⟨?_, ?_, ?_, ?_⟩
  · simp [folder_loop, hf, hsupp, hsize, hconv]
  · intro h1 h2 h3 h4
    simp [process_file_source, h1, h2, h3, h4]
  · intro h
    simp [process_url_source, h]
  · exact convert_from_sources_cons s convE convF convU src others

/-- C4 witness at a concrete failing conversion of an eligible file. -/
theorem conversion_exception_counts_failed_and_continues_witness :
    (folder_loop Docling.script (fun _ => false) "n"
       [⟨true, [], "a", ".pdf", 10⟩]
       = { folder_loop Docling.script (fun _ => false) "n" [] with
             failed_count :=
               (folder_loop Docling.script (fun _ => false) "n" []).failed_count
                 + 1,
             attempts :=
               ⟨true, [], "a", ".pdf", 10⟩
                 :: (folder_loop Docling.script (fun _ => false) "n"
                       []).attempts })
  ∧ (({ source_type := "file", name := "f", path_exists := true,
        entries := [], suffix := ".pdf",
        sizeBytes := 10 } : SourceConfig).path_exists = true →
     suffix_supported Docling.script ".pdf" = true →
     exceeds_size_limit (10 : Nat) = false →
     (fun _ : SourceConfig => false)
        { source_type := "file", name := "f", path_exists := true,
          entries := [], suffix := ".pdf", sizeBytes := 10 } = false →
     process_file_source Docling.script (fun _ => false)
        { source_type := "file", name := "f", path_exists := true,
          entries := [], suffix := ".pdf", sizeBytes := 10 }
        = ⟨(0, 1, 0), true, none⟩)
  ∧ ((fun _ : SourceConfig => false)
        { source_type := "file", name := "f", path_exists := true,
          entries := [], suffix := ".pdf", sizeBytes := 10 } = false →
     process_url_source Docling.script (fun _ => false)
        { source_type := "file", name := "f", path_exists := true,
          entries := [], suffix := ".pdf", sizeBytes := 10 }
        = ⟨(0, 1, 0), true, none⟩)
  ∧ (convert_from_sources Docling.script (fun _ => false) (fun _ => false)
       (fun _ => false)
       ({ source_type := "file", name := "f", path_exists := true,
          entries := [], suffix := ".pdf", sizeBytes := 10 } :: [])
       = add3
           (source_counts Docling.script (fun _ => false) (fun _ => false)
             (fun _ => false)
             { source_type := "file", name := "f", path_exists := true,
               entries := [], suffix := ".pdf", sizeBytes := 10 })
           (convert_from_sources Docling.script (fun _ => false)
             (fun _ => false) (fun _ => false) [])) :=
  conversion_exception_counts_failed_and_continues Docling.script
    (fun _ => false) (fun _ => false) (fun _ => false)
    ⟨true, [], "a", ".pdf", 10⟩ [] "n"
    { source_type := "file", name := "f", path_exists := true,
      entries := [], suffix := ".pdf", sizeBytes := 10 }
    [] (by decide) (by decide) (by decide) (by decide)

/-- C5: the totals `convert_from_sources` returns are the componentwise
sums of the per-source `(converted, failed, skipped)` triples, and the
total processed count computed in `main` — converted + failed + skipped
— equals the sum over all sources of the per-source totals. -/
theorem totals_are_componentwise_sums (s : Script) (convE : Entry → Bool)
    (convF convU : SourceConfig → Bool) (sources : List SourceConfig) :
    convert_from_sources s convE convF convU sources
      = ((sources.map
            (fun src => (source_counts s convE convF convU src).1)).sum,
         (sources.map
            (fun src => (source_counts s convE convF convU src).2.1)).sum,
         (sources.map
            (fun src => (source_counts s convE convF convU src).2.2)).sum)
  ∧ total_processed (convert_from_sources s convE convF convU sources)
      = (sources.map (fun src =>
           total_processed (source_counts s convE convF convU src))).sum := by
  constructor
  · induction sources with
    | nil => rfl
    | cons src rest ih =>
      rw [convert_from_sources_cons, ih]
      simp [add3, List.map_cons, List.sum_cons]
  · induction sources with
    | nil => rfl
    | cons src rest ih =>
      rw [convert_from_sources_cons, total_processed_add3, ih]
      simp [List.map_cons, List.sum_cons]

/-- C6: every output path written follows the layout convention.
Folder outputs go to `<tool>/output/<source-name>/` followed by the
relative path of the yielded entry with the suffix replaced by the
script output extension; single-file outputs go to
`<tool>/output/single_files/<name><ext>`; URL outputs go to
`<tool>/output/urls/<name><ext>`; and in all four scripts as configured
that extension is `.md` (the marker script computes it from
`OUTPUT_FORMAT = "markdown"` and would use the library-chosen extension
otherwise). -/
theorem output_paths_follow_layout (s : Script) (convE : Entry → Bool)
    (convF convU : SourceConfig → Bool) (src : SourceConfig) :
    (∀ p ∈ (process_folder_source s convE src).writes,
       ∃ e, e ∈ src.entries ∧
         p = output_dir s ++ [src.name] ++ e.dir ++ [e.stem ++ s.out_ext])
  ∧ (∀ p ∈ (process_file_source s convF src).write,
       p = output_dir s ++ ["single_files", src.name ++ s.out_ext])
  ∧ (∀ p ∈ (process_url_source s convU src).write,
       p = output_dir s ++ ["urls", src.name ++ s.out_ext])
  ∧ (∀ s0 ∈ all_scripts, s0.out_ext = ".md") := by
  refine ⟨?_, ?_, ?_, ?_⟩
  · intro p hp
    cases hex : src.path_exists with
    | false => simp [process_folder_source, hex, FolderRun.empty] at hp
    | true =>
      simp only [process_folder_source, hex, if_true] at hp
      exact folder_loop_writes s convE src.name src.entries p hp
  · intro p hp
    cases hpe : src.path_exists with
    | false => simp [process_file_source, hpe] at hp
    | true =>
      cases hsup : suffix_supported s src.suffix with
      | false => simp [process_file_source, hpe, hsup] at hp
      | true =>
        cases hov : exceeds_size_limit src.sizeBytes with
        | true => simp [process_file_source, hpe, hsup, hov] at hp
        | false =>
          cases hc : convF src with
          | false => simp [process_file_source, hpe, hsup, hov, hc] at hp
          | true =>
            simp [process_file_source, hpe, hsup, hov, hc] at hp
            exact hp.symm
  · intro p hp
    cases hc : convU src with
    | false => simp [process_url_source, hc] at hp
    | true =>
      simp [process_url_source, hc] at hp
      exact hp.symm
  · decide

/-- C7 counterexample: in the pymupdf script a source of type `"url"`
is not dispatched to any URL-handling path — it falls to the
unsupported-type branch, and a source list holding only a URL source
contributes nothing to the totals. -/
theorem pymupdf_url_not_dispatched :
    dispatch Pymupdf.script.handles_url ("url") = none
    ∧ convert_from_sources Pymupdf.script (fun _ => true) (fun _ => true)
        (fun _ => true)
        [{ source_type := "url", name := "u", path_exists := true,
           entries := [], suffix := "", sizeBytes := 0 }] = (0, 0, 0) := by
  decide

/-- C7 amended: all four scripts process a configurable source list and
dispatch `"folder"` and `"file"` sources to the folder and file paths;
the docling, marker and markitdown scripts also dispatch `"url"`
sources to a URL-handling path, but the pymupdf script has no URL
branch and sends `"url"` sources to the unsupported-type branch. -/
theorem url_dispatch_per_script :
    dispatch Docling.script.handles_url ("url") = some Handler.url
    ∧ dispatch Marker.script.handles_url ("url") = some Handler.url
    ∧ dispatch Markitdown.script.handles_url ("url") = some Handler.url
    ∧ dispatch Pymupdf.script.handles_url ("url") = none
    ∧ ∀ s0 ∈ all_scripts,
        dispatch s0.handles_url ("folder") = some Handler.folder
        ∧ dispatch s0.handles_url ("file") = some Handler.file := by
  decide

/-- C8: a source whose type is none of the dispatched cases leaves all
three running totals unchanged, and processing continues with the
remaining sources. -/
theorem unknown_source_type_leaves_totals_unchanged (s : Script)
    (convE : Entry → Bool) (convF convU : SourceConfig → Bool)
    (src : SourceConfig) (rest : List SourceConfig)
    (h : dispatch s.handles_url src.source_type = none) :
    convert_from_sources s convE convF convU (src :: rest)
      = convert_from_sources s convE convF convU rest := by
  rw [convert_from_sources_cons]
  simp only [source_counts, h]
  exact add3_zero_left (convert_from_sources s convE convF convU rest)

/-- C8 witness: in the pymupdf script a `"url"`-typed source is
undispatched and leaves the totals of the remaining sources as they
were. -/
theorem unknown_source_type_leaves_totals_unchanged_witness :
    convert_from_sources Pymupdf.script (fun _ => true) (fun _ => true)
      (fun _ => true)
      ({ source_type := "url", name := "u", path_exists := true,
         entries := [], suffix := "", sizeBytes := 0 }
        :: [{ source_type := "file", name := "f", path_exists := false,
              entries := [], suffix := "", sizeBytes := 0 }])
      = convert_from_sources Pymupdf.script (fun _ => true) (fun _ => true)
          (fun _ => true)
          [{ source_type := "file", name := "f", path_exists := false,
             entries := [], suffix := "", sizeBytes := 0 }] :=
  unknown_source_type_leaves_totals_unchanged Pymupdf.script (fun _ => true)
    (fun _ => true) (fun _ => true)
    { source_type := "url", name := "u", path_exists := true,
      entries := [], suffix := "", sizeBytes := 0 }
    [{ source_type := "file", name := "f", path_exists := false,
       entries := [], suffix := "", sizeBytes := 0 }]
    (by decide)

/-- C9: a file-type source contributes exactly one count to exactly one
counter: `process_file_source` returns `(1, 0, 0)`, `(0, 1, 0)` or
`(0, 0, 1)`. -/
theorem file_source_unit_outcome (s : Script) (convF : SourceConfig → Bool)
    (src : SourceConfig) :
    (process_file_source s convF src).counts = (1, 0, 0)
    ∨ (process_file_source s convF src).counts = (0, 1, 0)
    ∨ (process_file_source s convF src).counts = (0, 0, 1) := by
  cases hpe : src.path_exists with
  | false => right; left; simp [process_file_source, hpe]
  | true =>
    cases hsup : suffix_supported s src.suffix with
    | false => right; left; simp [process_file_source, hpe, hsup]
    | true =>
      cases hov : exceeds_size_limit src.sizeBytes with
      | true => right; right; simp [process_file_source, hpe, hsup, hov]
      | false =>
        cases hc : convF src with
        | false => right; left; simp [process_file_source, hpe, hsup, hov, hc]
        | true => left; simp [process_file_source, hpe, hsup, hov, hc]

/-- C10: in `process_file_source` the extension check precedes the size
check: an existing single-file source with an extension outside the
allow-list returns `(0, 1, 0)` without a conversion call, and the
result is the same whatever the size of the file — an oversized
unsupported file counts as failed, never as skipped. -/
theorem extension_check_precedes_size_check (s : Script)
    (convF : SourceConfig → Bool) (src : SourceConfig)
    (hpe : src.path_exists = true)
    (hsup : suffix_supported s src.suffix = false) :
    process_file_source s convF src = ⟨(0, 1, 0), false, none⟩
    ∧ ∀ n, process_file_source s convF { src with sizeBytes := n }
        = process_file_source s convF src := by
  have hbase : process_file_source s convF src = ⟨(0, 1, 0), false, none⟩ := by
    simp [process_file_source, hpe, hsup]
  refine ⟨hbase, fun n => ?_⟩
  rw [hbase]
  simp [process_file_source, hpe, hsup]

/-- C10 witness: a concrete oversized file with an unsupported
extension is counted failed at every size, in particular at size 0. -/
theorem extension_check_precedes_size_check_witness :
    process_file_source Docling.script (fun _ => true)
      { source_type := "file", name := "f", path_exists := true,
        entries := [], suffix := ".xyz", sizeBytes := 60 * 1024 * 1024 }
      = ⟨(0, 1, 0), false, none⟩
    ∧ ∀ n, process_file_source Docling.script (fun _ => true)
        { source_type := "file", name := "f", path_exists := true,
          entries := [], suffix := ".xyz", sizeBytes := n }
        = process_file_source Docling.script (fun _ => true)
            { source_type := "file", name := "f", path_exists := true,
              entries := [], suffix := ".xyz",
              sizeBytes := 60 * 1024 * 1024 } :=
  extension_check_precedes_size_check Docling.script (fun _ => true)
    { source_type := "file", name := "f", path_exists := true,
      entries := [], suffix := ".xyz", sizeBytes := 60 * 1024 * 1024 }
    (by decide) (by decide)
